import Mathlib

/-!
Verification development for the fly-print-edge cloud synchronization
subsystem.  The Lean definitions below are a shallow embedding of the
Python sources (`cloud_auth.py`, `cloud_api_client.py`,
`cloud_heartbeat_service.py`, `cloud_websocket_client.py`,
`cloud_service.py`): pure logic is translated directly, stateful loops
become explicit state passing or trace-producing functions, network I/O
is represented by oracle parameters (the response the network would
give), and timestamps are integer seconds.
-/

/-! ### Generic string helpers

Python string operations (`in`, `str.replace`, `str.split`) are embedded
as structurally recursive functions over `List Char` so that every
concrete instance is kernel-evaluable. -/

/-- Index of the first occurrence of `pat` in `l`, if any
(counterpart of Python's `str.find` for non-empty patterns). -/
def findPat (pat : List Char) : List Char → Option Nat
  | [] => none
  | c :: rest =>
    if pat.isPrefixOf (c :: rest) then some 0
    else (findPat pat rest).map (· + 1)

/-- Split on every occurrence of `pat`, with explicit fuel (the length of
the scanned list always suffices, since each step consumes at least one
character). Counterpart of Python's `str.split(pat)` for non-empty `pat`. -/
def splitPatFuel (pat : List Char) : Nat → List Char → List (List Char)
  | 0, l => [l]
  | fuel + 1, l =>
    match findPat pat l with
    | none => [l]
    | some i => l.take i :: splitPatFuel pat fuel (l.drop (i + pat.length))

/-- Counterpart of Python's `str.replace(pat, rep)` (replaces every
occurrence, left to right, non-overlapping), for non-empty `pat`. -/
def pyReplace (s pat rep : String) : String :=
  if pat.data = [] then s
  else ⟨List.intercalate rep.data (splitPatFuel pat.data s.data.length s.data)⟩

/-- Counterpart of Python's substring test `pat in s`. -/
def containsSub (s pat : String) : Bool := (findPat pat.data s.data).isSome

/-- Truthiness of an optional string under Python rules: `None` and the
empty string are falsy, every other string is truthy. -/
def pyTruthyStr : Option String → Bool
  | none => false
  | some s => !(s == "")

/-! ### `cloud_auth.py` — `CloudAuthClient`

The client's mutable fields `access_token` / `token_expires_at` form the
state; `datetime.now()` is the integer parameter `now` (seconds);
`timedelta(minutes=5)` is 300 seconds; the auth server's answer to the
token POST is the oracle `TokenResponse`. -/

/-- Mutable state of `CloudAuthClient`: the cached token and its expiry
timestamp (seconds), both initially absent. -/
structure CloudAuthState where
  access_token : Option String
  token_expires_at : Option Int
deriving DecidableEq

/-- Outcome of the OAuth2 token POST in `_refresh_token`: HTTP 200 with
the parsed `access_token` and optional `expires_in` fields, a non-200
response, or a transport exception. -/
inductive TokenResponse
  | ok (access_token : Option String) (expires_in : Option Int)
  | httpError
  | transportError
deriving DecidableEq

/-- `CloudAuthClient._is_token_valid`: the cached token counts as valid
when it is truthy, an expiry is recorded, and `now` is strictly earlier
than `expires_at - 5 minutes`. -/
def is_token_valid (s : CloudAuthState) (now : Int) : Bool :=
  match s.token_expires_at with
  | none => false
  | some exp => pyTruthyStr s.access_token && decide (now < exp - 300)

/-- `CloudAuthClient._refresh_token`: on HTTP 200 store the parsed token
and `expires_at = now + expires_in` (default 3600) and return the token;
on any failure return no token and leave the cached state unchanged. -/
def refresh_token (s : CloudAuthState) (now : Int) (resp : TokenResponse) :
    CloudAuthState × Option String :=
  match resp with
  | TokenResponse.ok tok expIn => (⟨tok, some (now + expIn.getD 3600)⟩, tok)
  | TokenResponse.httpError => (s, none)
  | TokenResponse.transportError => (s, none)

/-- `CloudAuthClient.get_access_token`: return the cached token when it
is still valid, otherwise refresh. -/
def get_access_token (s : CloudAuthState) (now : Int) (resp : TokenResponse) :
    CloudAuthState × Option String :=
  if is_token_valid s now then (s, s.access_token) else refresh_token s now resp

/-- Headers built from an optional token (the body of
`CloudAuthClient.get_auth_headers` after the token has been obtained):
the `Authorization` entry is present exactly when the token is truthy. -/
def auth_headers_for (token : Option String) : List (String × String) :=
  if pyTruthyStr token then
    [("Authorization", "Bearer " ++ token.getD ""), ("Content-Type", "application/json")]
  else
    [("Content-Type", "application/json")]

/-- `CloudAuthClient.get_auth_headers`: fetch a token (possibly
refreshing) and build the header list from it. -/
def get_auth_headers (s : CloudAuthState) (now : Int) (resp : TokenResponse) :
    CloudAuthState × List (String × String) :=
  let r := get_access_token s now resp
  (r.1, auth_headers_for r.2)

/-! ### `cloud_api_client.py` — `CloudAPIClient`

Each API operation is a function of the client's `node_id` field, the
configured base URL and a response oracle; it yields the HTTP request it
would issue (if any) together with the returned result dictionary.
Request payloads (heartbeat body, printer descriptors, timestamps) do
not influence any claim and are not tracked beyond method and URL. -/

/-- Result dictionary returned by every `CloudAPIClient` operation:
`{"success": ..., "error": ...}` (the `data` field of successful calls
is not tracked). -/
structure ApiResult where
  success : Bool
  error : Option String
deriving DecidableEq

/-- The HTTP request an operation would issue: method and URL. -/
structure HttpRequest where
  method : String
  url : String
deriving DecidableEq

/-- Outcome of an HTTP call: a status code with a response body, or a
transport exception with its message. -/
inductive HttpResponse
  | ok (code : Nat) (body : String)
  | exn (msg : String)
deriving DecidableEq

/-- `CloudAPIClient.send_heartbeat`: with no `node_id` return
`{"success": False, "error": "节点未注册"}` and issue no request;
otherwise POST `/api/v1/edge/heartbeat` and succeed exactly on 200. -/
def send_heartbeat (node_id : Option String) (base_url : String) (resp : HttpResponse) :
    Option HttpRequest × ApiResult :=
  match node_id with
  | none => (none, ⟨false, some "节点未注册"⟩)
  | some _ =>
    let req : HttpRequest := ⟨"POST", base_url ++ "/api/v1/edge/heartbeat"⟩
    match resp with
    | HttpResponse.ok 200 _ => (some req, ⟨true, none⟩)
    | HttpResponse.ok _ body => (some req, ⟨false, some body⟩)
    | HttpResponse.exn msg => (some req, ⟨false, some msg⟩)

/-- `CloudAPIClient.register_printers`: with no `node_id` return
`{"success": False, "error": "节点未注册"}` and issue no request;
otherwise POST `/api/v1/edge/{node_id}/printers` and succeed on 200 or
201. -/
def register_printers (node_id : Option String) (base_url : String) (resp : HttpResponse) :
    Option HttpRequest × ApiResult :=
  match node_id with
  | none => (none, ⟨false, some "节点未注册"⟩)
  | some nid =>
    let req : HttpRequest := ⟨"POST", base_url ++ "/api/v1/edge/" ++ nid ++ "/printers"⟩
    match resp with
    | HttpResponse.ok 200 _ => (some req, ⟨true, none⟩)
    | HttpResponse.ok 201 _ => (some req, ⟨true, none⟩)
    | HttpResponse.ok _ body => (some req, ⟨false, some body⟩)
    | HttpResponse.exn msg => (some req, ⟨false, some msg⟩)

/-- `CloudAPIClient.get_websocket_url`: `None` when the node is not
registered; otherwise the base URL with `http`/`https` schemes rewritten
to `ws`/`wss` plus `/api/v1/edge/ws?node_id=<id>`. -/
def get_websocket_url (node_id : Option String) (base_url : String) : Option String :=
  match node_id with
  | none => none
  | some nid =>
    some ((pyReplace (pyReplace base_url "http://" "ws://") "https://" "wss://")
      ++ "/api/v1/edge/ws?node_id=" ++ nid)

/-- `CloudAPIClient.update_printer_status`: with no `node_id` return
`{"success": False, "error": "节点未注册"}` and issue no request;
otherwise PUT the per-printer status URL and succeed exactly on 200. -/
def update_printer_status (node_id : Option String) (base_url printer_name : String)
    (resp : HttpResponse) : Option HttpRequest × ApiResult :=
  match node_id with
  | none => (none, ⟨false, some "节点未注册"⟩)
  | some nid =>
    let req : HttpRequest :=
      ⟨"PUT", base_url ++ "/api/v1/edge/" ++ nid ++ "/printers/" ++ printer_name ++ "/status"⟩
    match resp with
    | HttpResponse.ok 200 _ => (some req, ⟨true, none⟩)
    | HttpResponse.ok _ body => (some req, ⟨false, some body⟩)
    | HttpResponse.exn msg => (some req, ⟨false, some msg⟩)

/-- `CloudAPIClient.report_print_job_result`: with no `node_id` return
`{"success": False, "error": "节点未注册"}` and issue no request;
otherwise POST the per-job result URL and succeed exactly on 200. -/
def report_print_job_result (node_id : Option String) (base_url job_id : String)
    (resp : HttpResponse) : Option HttpRequest × ApiResult :=
  match node_id with
  | none => (none, ⟨false, some "节点未注册"⟩)
  | some nid =>
    let req : HttpRequest :=
      ⟨"POST", base_url ++ "/api/v1/edge/" ++ nid ++ "/jobs/" ++ job_id ++ "/result"⟩
    match resp with
    | HttpResponse.ok 200 _ => (some req, ⟨true, none⟩)
    | HttpResponse.ok _ body => (some req, ⟨false, some body⟩)
    | HttpResponse.exn msg => (some req, ⟨false, some msg⟩)

/-! ### `cloud_heartbeat_service.py` — `HeartbeatService`

The consecutive-failure counter `heartbeat_failures` is the state of the
loop; each iteration is driven by two oracles: whether the psutil metric
collection inside `_collect_status_info` succeeds (its `except` arm
builds the fallback payload `{"status": "unknown",
"connection_quality": 50, "latency": 0}` instead of the computed one),
and whether `api_client.send_heartbeat` reports success. -/

/-- Update of `heartbeat_failures` performed by one iteration of
`HeartbeatService._heartbeat_loop`: reset to 0 on success, increment by
one on failure. -/
def heartbeat_failures_step (heartbeat_failures : Nat) (success : Bool) : Nat :=
  if success then 0 else heartbeat_failures + 1

/-- The `connection_quality` computation on the normal path of
`HeartbeatService._collect_status_info`: a pure function of the
consecutive-failure counter. -/
def connection_quality_of_failures (heartbeat_failures : Nat) : Nat :=
  if heartbeat_failures = 0 then 100
  else if heartbeat_failures = 1 then 80
  else if heartbeat_failures = 2 then 60
  else 40

/-- The `connection_quality` actually placed in the payload by
`_collect_status_info`: the counter table when metric collection
succeeds, the fixed fallback 50 (sent together with status `unknown`
and latency 0) when it raises. -/
def collect_connection_quality (collect_ok : Bool) (heartbeat_failures : Nat) : Nat :=
  if collect_ok then connection_quality_of_failures heartbeat_failures else 50

/-- The environment of one `_heartbeat_loop` iteration: whether the
psutil metric collection succeeded, and whether the heartbeat POST was
reported successful. -/
structure HeartbeatIteration where
  collect_ok : Bool
  send_success : Bool
deriving DecidableEq

/-- The consecutive-failure counter sampled at the start of each loop
iteration (the value `_collect_status_info` reads when building the
payload), for a given sequence of iteration environments. -/
def heartbeat_counter_trace : Nat → List HeartbeatIteration → List Nat
  | _, [] => []
  | f, it :: rest =>
    f :: heartbeat_counter_trace (heartbeat_failures_step f it.send_success) rest

/-- Trace of `HeartbeatService._heartbeat_loop`: for each iteration, the
`connection_quality` included in that heartbeat's payload (counter table
or the exception fallback 50) and the counter value after the send
outcome is processed. -/
def heartbeat_loop_trace : Nat → List HeartbeatIteration → List (Nat × Nat)
  | _, [] => []
  | f, it :: rest =>
    (collect_connection_quality it.collect_ok f,
      heartbeat_failures_step f it.send_success)
      :: heartbeat_loop_trace (heartbeat_failures_step f it.send_success) rest

/-- The coarse status computation of
`HeartbeatService._collect_status_info`: `busy` when any of CPU, memory
or disk usage exceeds 90; otherwise `moderate` when CPU or memory
exceeds 70 (the disk metric is not consulted here); otherwise
`online`. -/
def collect_status (cpu_percent memory_percent disk_percent : ℚ) : String :=
  if cpu_percent > 90 ∨ memory_percent > 90 ∨ disk_percent > 90 then "busy"
  else if cpu_percent > 70 ∨ memory_percent > 70 then "moderate"
  else "online"

/-- Status computation as claim C6 words it ("both thresholds are
applied to any of the three metrics"), for comparison with
`collect_status`. -/
def collect_status_claimed (cpu_percent memory_percent disk_percent : ℚ) : String :=
  if cpu_percent > 90 ∨ memory_percent > 90 ∨ disk_percent > 90 then "busy"
  else if cpu_percent > 70 ∨ memory_percent > 70 ∨ disk_percent > 70 then "moderate"
  else "online"

/-! ### `cloud_service.py` — `PrinterStatusReporter`

The reporter's per-device cache entry and one poll-cycle step are
embedded directly; a run of the monitor loop over a device's successive
`(native status, queue length)` readings is the fold of that step. -/

/-- The lookup table of
`PrinterStatusReporter._convert_status_to_cloud_format`. -/
def status_map : List (String × String) :=
  [("idle", "ready"), ("processing", "printing"), ("stopped", "error"),
   ("unknown", "offline"),
   ("在线", "ready"), ("空闲", "ready"), ("打印中", "printing"),
   ("离线", "offline"), ("停止", "error"), ("已禁用", "error"), ("未知", "offline")]

/-- `PrinterStatusReporter._convert_status_to_cloud_format`: map the
backend's native status through `status_map`, defaulting to
`offline`. -/
def convert_status_to_cloud_format (cups_status : String) : String :=
  (List.lookup cups_status status_map).getD "offline"

/-- One entry of `PrinterStatusReporter.last_status`: the last reported
cloud status and queue length for a device. -/
structure StatusCacheEntry where
  status : String
  queue_length : Nat
deriving DecidableEq

/-- One device's poll cycle inside
`PrinterStatusReporter._check_and_report_status`: given the cached entry
(absent before the first report) and the current native status and queue
length, return the new cache entry together with the
`(status, queue_length)` payload of the emitted `printer_status` message,
if one is emitted. -/
def check_and_report_device (last : Option StatusCacheEntry)
    (native_status : String) (queue_length : Nat) :
    Option StatusCacheEntry × Option (String × Nat) :=
  let cloud_status := convert_status_to_cloud_format native_status
  let changed : Bool :=
    match last with
    | none => true
    | some e => !(e.status == cloud_status) || !(e.queue_length == queue_length)
  if changed then (some ⟨cloud_status, queue_length⟩, some (cloud_status, queue_length))
  else (last, none)

/-- A run of the reporter's monitor loop over one device: for each poll
cycle's `(native status, queue length)` reading, the message emitted in
that cycle (or `none`). -/
def report_cycles (last : Option StatusCacheEntry) :
    List (String × Nat) → List (Option (String × Nat))
  | [] => []
  | (s, q) :: rest =>
    let r := check_and_report_device last s q
    r.2 :: report_cycles r.1 rest

/-! ### `cloud_websocket_client.py` — `CloudWebSocketClient._connect_and_listen`

The reconnect loop is embedded as a trace-producing function.  The
`running` flag is written only by `start`/`stop` on other threads; the
loop reads it twice per iteration — at the `while` head and at the
trailing reconnect check — so an iteration is described by the two
sampled values plus the attempt's outcome.  `stop()` only ever changes
the flag from `true` to `false`, and the loop exits at the first `false`
head sample, after which no further iterations exist. -/

/-- What one iteration of the reconnect loop runs into: the token fetch
yields no token, or the websocket connection attempt eventually fails
(connection refused, protocol error, or the established connection
closing — all of which fall through to the same reconnect check). -/
inductive WsOutcome
  | tokenFail
  | connectFail
deriving DecidableEq

/-- Observable events of the reconnect loop: a websocket connection
attempt, or a sleep of the given number of seconds. -/
inductive WsEvent
  | connectAttempt
  | sleep (seconds : Nat)
deriving DecidableEq

/-- One iteration of the reconnect loop: the `running` flag sampled at
the `while` head, the iteration's outcome, and the flag sampled at the
trailing reconnect check. -/
structure WsIteration where
  head_running : Bool
  outcome : WsOutcome
  tail_running : Bool
deriving DecidableEq

/-- Trace of `CloudWebSocketClient._connect_and_listen`: the loop exits
at the first `false` head sample; a token failure sleeps the 5-second
`reconnect_interval` unconditionally and retries; a connection attempt
that ends (for whatever reason) sleeps the 5-second interval only if the
flag is still set at the trailing check. -/
def connect_and_listen : List WsIteration → List WsEvent
  | [] => []
  | it :: rest =>
    if it.head_running then
      match it.outcome with
      | WsOutcome.tokenFail => WsEvent.sleep 5 :: connect_and_listen rest
      | WsOutcome.connectFail =>
        WsEvent.connectAttempt ::
          (if it.tail_running then WsEvent.sleep 5 :: connect_and_listen rest
           else connect_and_listen rest)
    else []

/-- The per-iteration event block of the reconnect loop while the
`running` flag stays set. -/
def ws_iteration_block (it : WsIteration) : List WsEvent :=
  match it.outcome with
  | WsOutcome.tokenFail => [WsEvent.sleep 5]
  | WsOutcome.connectFail => [WsEvent.connectAttempt, WsEvent.sleep 5]

/-! ### `cloud_websocket_client.py` — `PrintJobHandler._monitor_job_completion`

The monitor thread is a loop of at most 60 polls (10-second sleeps up to
the 600-second ceiling); the backend's `get_job_status` answer at each
poll is the oracle `poll : Nat → Option JobQuery`, with `none` standing
for an exception raised by the query.  Every exit path of the source
calls `_report_job_success`; the event `reportFailure` exists in the
event alphabet (it is what `_report_job_failure` emits) precisely so
that its absence from monitor traces is a meaningful statement. -/

/-- The dictionary returned by `printer_manager.get_job_status`:
the `exists` key (default `True`) and the optional `status` key. -/
structure JobQuery where
  existsInQueue : Bool
  status : Option String
deriving DecidableEq

/-- The monitor's stopping test on one query result: the job is absent
from the backend queue, or its status is `completed` or
`completed_or_failed`. -/
def job_query_terminal (q : JobQuery) : Bool :=
  !q.existsInQueue ||
    (q.status == some "completed" || q.status == some "completed_or_failed")

/-- Whether the monitor stops at poll `i`: the query raised (`none`), or
its answer is terminal. -/
def monitor_poll_stops (poll : Nat → Option JobQuery) (i : Nat) : Bool :=
  match poll i with
  | none => true
  | some q => job_query_terminal q

/-- Observable events of one job's completion monitor. -/
inductive MonitorEvent
  | sleep (seconds : Nat)
  | pollStatus (pollIndex : Nat)
  | reportSuccess
  | reportFailure
deriving DecidableEq

/-- The polling loop of `_monitor_job_completion`, with `fuel` the
remaining iterations (600 / 10 = 60 initially) and `i` the index of the
next poll: sleep 10 seconds, query the job, report success on an
exception or a terminal answer, otherwise continue; when the ceiling is
reached, report success anyway. -/
def monitor_loop (poll : Nat → Option JobQuery) : Nat → Nat → List MonitorEvent
  | 0, _ => [MonitorEvent.reportSuccess]
  | fuel + 1, i =>
    MonitorEvent.sleep 10 :: MonitorEvent.pollStatus i ::
      (match poll i with
       | none => [MonitorEvent.reportSuccess]
       | some q =>
         if job_query_terminal q then [MonitorEvent.reportSuccess]
         else monitor_loop poll fuel (i + 1))

/-- `PrintJobHandler._monitor_job_completion`: with no truthy local job
handle, sleep a fixed 10 seconds and report success unconditionally;
otherwise run the polling loop with the 600-second ceiling. -/
def monitor_job_completion (local_job_id : Option String)
    (poll : Nat → Option JobQuery) : List MonitorEvent :=
  if pyTruthyStr local_job_id then monitor_loop poll 60 0
  else [MonitorEvent.sleep 10, MonitorEvent.reportSuccess]

/-- The events of `n` consecutive non-terminal poll iterations starting
at index `i`: each is a 10-second sleep followed by the status query. -/
def monitor_poll_blocks : Nat → Nat → List MonitorEvent
  | _, 0 => []
  | i, n + 1 =>
    MonitorEvent.sleep 10 :: MonitorEvent.pollStatus i :: monitor_poll_blocks (i + 1) n

/-! ### `cloud_websocket_client.py` — `PrintJobHandler.handle_print_job`

The handler runs synchronously up to spawning the completion monitor;
its observable actions (the download request with its headers, the
backend submission, the `job_update` messages sent over the channel, the
spawn of the monitor thread) form the event list it produces.  The
download response and the backend's submission result are oracles.  The
handler is registered on the websocket client and the client reference
is wired before registration (`cloud_service.py`), so the channel is
present whenever the handler runs and a `_report_job_*` call sends its
message. -/

/-- The `data` payload of an inbound `print_job` message; absent JSON
keys are `none`.  `print_options` is passed through opaquely. -/
structure PrintJobData where
  job_id : Option String
  printer_name : Option String
  file_url : Option String
  name : Option String
  print_options : List (String × String)

/-- Result dictionary of
`printer_manager.submit_print_job_with_cleanup`: success flag, optional
`message` (read on failure) and optional local `job_id`. -/
structure SubmitResult where
  success : Bool
  message : Option String
  job_id : Option String

/-- Observable actions of one `handle_print_job` run. -/
inductive PipelineEvent
  | download (url : String) (headers : List (String × String))
  | submitJob (printer_name file_path job_name : String)
  | jobUpdate (job_id status : String) (progress : Nat) (error_message : Option String)
  | monitorStarted (cloud_job_id : String) (local_job_id : Option String)
deriving DecidableEq

/-- The S3 pre-signed-URL test of `PrintJobHandler._download_print_file`:
both `X-Amz-Algorithm` and `X-Amz-Signature` occur in the URL. -/
def is_presigned_url (file_url : String) : Bool :=
  containsSub file_url "X-Amz-Algorithm" && containsSub file_url "X-Amz-Signature"

/-- The headers `_download_print_file` sends: none for a pre-signed URL,
otherwise the auth client's headers built from the available token. -/
def download_headers (file_url : String) (token : Option String) :
    List (String × String) :=
  if is_presigned_url file_url then [] else auth_headers_for token

/-- The `path` component of a URL as `urllib.parse.urlparse` computes it
for scheme-and-authority URLs: strip any fragment and query, and when a
`://` separator is present take the suffix of the authority starting at
its first `/` (empty if there is none); a string without `://` is
returned whole. -/
def urlparse_path (url : List Char) : List Char :=
  let noFrag := (splitPatFuel ['#'] url.length url).headD []
  let noQuery := (splitPatFuel ['?'] noFrag.length noFrag).headD []
  match findPat [':', '/', '/'] noQuery with
  | none => noQuery
  | some i =>
    let rest := noQuery.drop (i + 3)
    match findPat ['/'] rest with
    | none => []
    | some j => rest.drop j

/-- Filename chosen by `_download_print_file`: the basename of the URL
path, falling back to `cloud_job_{job_id}.pdf` when that basename is
empty or has no dot. -/
def extract_download_filename (file_url job_id : String) : String :=
  let p := urlparse_path file_url.data
  let orig := (splitPatFuel ['/'] p.length p).getLastD []
  if orig.isEmpty || !orig.contains '.' then "cloud_job_" ++ job_id ++ ".pdf"
  else ⟨orig⟩

/-- Path of the downloaded temporary file (`tempfile.gettempdir()` is
modelled as `/tmp`). -/
def download_temp_path (file_url job_id : String) : String :=
  "/tmp/" ++ extract_download_filename file_url job_id

/-- `PrintJobHandler._download_print_file`: choose the headers by the
pre-signed test, then return the saved temporary path on HTTP 200 and
`None` on any other status code or a transport exception
(`download_resp = none`). -/
def download_print_file (file_url job_id : String) (token : Option String)
    (download_resp : Option Nat) : List (String × String) × Option String :=
  (download_headers file_url token,
    match download_resp with
    | none => none
    | some code =>
      if code = 200 then some (download_temp_path file_url job_id) else none)

/-- `PrintJobHandler._report_job_failure`: send a failed `job_update`
(progress 0) when the cloud job id is truthy, otherwise do nothing. -/
def report_job_failure (job_id : Option String) (error_message : String) :
    List PipelineEvent :=
  if pyTruthyStr job_id then
    [PipelineEvent.jobUpdate (job_id.getD "") "failed" 0 (some error_message)]
  else []

/-- `PrintJobHandler.handle_print_job`: extract the payload fields;
abort silently unless `job_id`, `printer_name` and `file_url` are all
truthy; download the file, reporting `文件下载失败` and stopping on
failure; submit to the backend, starting the completion monitor on
success and reporting the backend's message on failure. -/
def handle_print_job (msg : PrintJobData) (token : Option String)
    (download_resp : Option Nat) (submit : SubmitResult) : List PipelineEvent :=
  if pyTruthyStr msg.job_id && pyTruthyStr msg.printer_name &&
      pyTruthyStr msg.file_url then
    let job_id := msg.job_id.getD ""
    let printer_name := msg.printer_name.getD ""
    let file_url := msg.file_url.getD ""
    let job_name := msg.name.getD ("CloudJob_" ++ job_id)
    let dl := download_print_file file_url job_id token download_resp
    PipelineEvent.download file_url dl.1 ::
      (match dl.2 with
       | none => report_job_failure msg.job_id "文件下载失败"
       | some file_path =>
         PipelineEvent.submitJob printer_name file_path job_name ::
           (if submit.success then
              [PipelineEvent.monitorStarted job_id submit.job_id]
            else report_job_failure msg.job_id (submit.message.getD "未知错误")))
  else []

/-! ### `cloud_service.py` — `CloudService.start` / `CloudService.stop`

`start` brings components up in a fixed order (heartbeat service, then
websocket client, then status reporter), gated on registration success
and on a websocket URL being available; `stop` calls the components'
`stop` methods in the textual order of the source, each guarded by the
component reference being non-`None`.  Each component's own `stop` only
clears its running flag. -/

/-- The three stoppable components of `CloudService`. -/
inductive CloudComponent
  | heartbeat
  | websocket
  | statusReporter
deriving DecidableEq

/-- Order in which `CloudService.start` starts components: the heartbeat
service always (after successful registration), then, only when
registration succeeded and a websocket URL was obtained, the websocket
client followed by the status reporter. -/
def cloud_service_start_order (register_ok ws_url_ok : Bool) : List CloudComponent :=
  if register_ok then
    CloudComponent.heartbeat ::
      (if ws_url_ok then [CloudComponent.websocket, CloudComponent.statusReporter]
       else [])
  else []

/-- The component references held by `CloudService` (`None` when a
component was never created) with each component's running flag, plus
the `registered` flag. -/
structure CloudServiceState where
  websocket_client : Option Bool
  heartbeat_service : Option Bool
  status_reporter : Option Bool
  registered : Bool
deriving DecidableEq

/-- `CloudWebSocketClient.stop`: clear the running flag (the socket is
left to close when the loop observes the flag). -/
def websocket_client_stop (running : Bool) : Bool := false && running

/-- `HeartbeatService.stop`: clear the running flag (then join the
thread, which holds no modelled state). -/
def heartbeat_service_stop (running : Bool) : Bool := false && running

/-- `PrinterStatusReporter.stop`: clear the running flag. -/
def status_reporter_stop (running : Bool) : Bool := false && running

/-- `CloudService.stop`: stop the websocket client, the heartbeat
service and the status reporter — in that textual order, each guarded by
presence — and clear `registered`; returns the new state and the
components actually stopped, in call order. -/
def cloud_service_stop (s : CloudServiceState) :
    CloudServiceState × List CloudComponent :=
  let ws := s.websocket_client.map websocket_client_stop
  let e1 : List CloudComponent :=
    match s.websocket_client with
    | some _ => [CloudComponent.websocket]
    | none => []
  let hb := s.heartbeat_service.map heartbeat_service_stop
  let e2 : List CloudComponent :=
    match s.heartbeat_service with
    | some _ => [CloudComponent.heartbeat]
    | none => []
  let sr := s.status_reporter.map status_reporter_stop
  let e3 : List CloudComponent :=
    match s.status_reporter with
    | some _ => [CloudComponent.statusReporter]
    | none => []
  (⟨ws, hb, sr, false⟩, e1 ++ e2 ++ e3)

/-! ### Theorems for claim C2 -/

/-- Claim C2, counterexample: the claim that every token value returned
by `get_access_token` satisfies `expires_at - now ≥ 5 minutes` fails on
the code: with an empty cache at `now = 0` and an auth-server response
carrying `expires_in = 10`, the call returns the fresh token although
its remaining validity is 10 seconds, far below the 300-second margin. -/
theorem get_access_token_margin_cex :
    (get_access_token ⟨none, none⟩ 0 (TokenResponse.ok (some "t") (some 10))).2 = some "t" ∧
    (get_access_token ⟨none, none⟩ 0
        (TokenResponse.ok (some "t") (some 10))).1.token_expires_at = some 10 ∧
    ¬ (300 ≤ (10 : Int) - 0) := by
  refine ⟨rfl, rfl, by decide⟩

/-- Claim C2 (amended): a cached token is returned without refresh only
when `expires_at - now > 300` seconds; a cached token within the margin
(or absent) triggers exactly one refresh before anything is returned;
the refreshed token meets the 300-second margin whenever the response's
`expires_in` is at least 300 (the unconditional margin fails — see the
counterexample); and after a successful refresh with `expires_in > 300`,
the new cached token is again valid at the same instant, so an
immediately repeated call performs no second refresh (one refresh per
boundary crossing). -/
theorem get_access_token_margin (s : CloudAuthState) (now : Int) (resp : TokenResponse) :
    (is_token_valid s now = true →
      get_access_token s now resp = (s, s.access_token) ∧
      ∃ exp, s.token_expires_at = some exp ∧ now < exp - 300) ∧
    (is_token_valid s now = false →
      get_access_token s now resp = refresh_token s now resp) ∧
    (∀ tok expIn, resp = TokenResponse.ok tok (some expIn) →
      is_token_valid s now = false → 300 ≤ expIn →
      ∃ exp, (get_access_token s now resp).1.token_expires_at = some exp ∧
        300 ≤ exp - now) ∧
    (∀ tok expIn, resp = TokenResponse.ok (some tok) (some expIn) →
      tok ≠ "" → 300 < expIn →
      is_token_valid (get_access_token s now resp).1 now = true) := by
  refine ⟨?_, ?_, ?_, ?_⟩
  · intro hv
    refine ⟨by simp [get_access_token, hv], ?_⟩
    unfold is_token_valid at hv
    match h : s.token_expires_at with
    | none => rw [h] at hv; exact absurd hv (by simp)
    | some exp =>
      rw [h] at hv
      refine ⟨exp, rfl, ?_⟩
      have := (Bool.and_eq_true _ _).mp hv
      exact of_decide_eq_true this.2
  · intro hv
    simp [get_access_token, hv]
  · intro tok expIn hresp hv hexp
    subst hresp
    refine ⟨now + expIn, ?_, by omega⟩
    simp [get_access_token, hv, refresh_token]
  · intro tok expIn hresp htok hexp
    subst hresp
    by_cases hv : is_token_valid s now = true
    · simp [get_access_token, hv]
    · have hv' : is_token_valid s now = false := by
        cases h : is_token_valid s now
        · rfl
        · exact absurd h hv
      simp only [get_access_token, hv', if_false, refresh_token]
      simp [is_token_valid, pyTruthyStr, htok]
      omega

/-- Claim C2, witness: a concrete run of the amended theorem — an empty
cache at `now = 0` refreshed with `expires_in = 3600` yields a stored
expiry meeting the 300-second margin. -/
theorem get_access_token_margin_witness :
    ∃ exp,
      (get_access_token ⟨none, none⟩ 0
          (TokenResponse.ok (some "t") (some 3600))).1.token_expires_at = some exp ∧
      300 ≤ exp - 0 :=
  (get_access_token_margin ⟨none, none⟩ 0
      (TokenResponse.ok (some "t") (some 3600))).2.2.1 (some "t") 3600 rfl (by decide)
    (by decide)

/-! ### Theorems for claim C10 -/

/-- Claim C10: every node-scoped API operation guards on registration —
with `node_id` unset, `send_heartbeat`, `register_printers`,
`update_printer_status` and `report_print_job_result` each return
`{"success": False, "error": "节点未注册"}` without issuing any HTTP
request, and `get_websocket_url` returns `None` instead of a URL. -/
theorem api_client_requires_registration (base_url printer_name job_id : String)
    (resp : HttpResponse) :
    send_heartbeat none base_url resp = (none, ⟨false, some "节点未注册"⟩) ∧
    register_printers none base_url resp = (none, ⟨false, some "节点未注册"⟩) ∧
    update_printer_status none base_url printer_name resp = (none, ⟨false, some "节点未注册"⟩) ∧
    report_print_job_result none base_url job_id resp = (none, ⟨false, some "节点未注册"⟩) ∧
    get_websocket_url none base_url = none := by
  exact ⟨rfl, rfl, rfl, rfl, rfl⟩

/-! ### Theorems for claim C5 -/

/-- Claim C5, counterexample: the claim that every heartbeat payload's
`connection_quality` is the counter table `{0:100, 1:80, 2:60, ≥3:40}`
fails on the code — when the psutil metric collection inside
`_collect_status_info` raises, its `except` arm sends the fallback
payload with `connection_quality` 50 regardless of the counter: at
counter 0 the table gives 100 but the sent payload carries 50. -/
theorem heartbeat_quality_fallback_cex :
    heartbeat_loop_trace 0 [⟨false, true⟩] = [(50, 0)] ∧
    connection_quality_of_failures 0 = 100 ∧
    (50 : Nat) ≠ 100 := by
  refine ⟨rfl, rfl, by decide⟩

/-- Claim C5 (amended): the consecutive-failure counter resets to 0
after every successful heartbeat and increments by exactly 1 on every
failure; the `connection_quality` carried by each heartbeat payload is
the counter table `{0 ↦ 100, 1 ↦ 80, 2 ↦ 60, ≥3 ↦ 40}` applied to the
counter sampled at that iteration whenever metric collection succeeds,
and the fixed fallback 50 when metric collection raises — so the pure
table function describes every payload of a run exactly when no
iteration of the run hits the collection exception. -/
theorem heartbeat_failure_counter_and_quality (f : Nat) (its : List HeartbeatIteration) :
    (∀ g, heartbeat_failures_step g true = 0) ∧
    (∀ g, heartbeat_failures_step g false = g + 1) ∧
    connection_quality_of_failures 0 = 100 ∧
    connection_quality_of_failures 1 = 80 ∧
    connection_quality_of_failures 2 = 60 ∧
    (∀ g, 3 ≤ g → connection_quality_of_failures g = 40) ∧
    (∀ g, collect_connection_quality true g = connection_quality_of_failures g) ∧
    (∀ g, collect_connection_quality false g = 50) ∧
    (heartbeat_loop_trace f its).map Prod.fst =
      (its.zip (heartbeat_counter_trace f its)).map
        (fun p => collect_connection_quality p.1.collect_ok p.2) ∧
    ((∀ it ∈ its, it.collect_ok = true) →
      (heartbeat_loop_trace f its).map Prod.fst =
        (heartbeat_counter_trace f its).map connection_quality_of_failures) := by
  refine ⟨fun g => rfl, fun g => rfl, rfl, rfl, rfl, ?_, fun g => rfl, fun g => rfl, ?_, ?_⟩
  · intro g hg
    unfold connection_quality_of_failures
    have h0 : g ≠ 0 := by omega
    have h1 : g ≠ 1 := by omega
    have h2 : g ≠ 2 := by omega
    simp [h0, h1, h2]
  · induction its generalizing f with
    | nil => rfl
    | cons it rest ih =>
      simp [heartbeat_loop_trace, heartbeat_counter_trace, ih]
  · intro hall
    induction its generalizing f with
    | nil => rfl
    | cons it rest ih =>
      have hit : it.collect_ok = true := hall it (List.mem_cons_self it rest)
      have hrest : ∀ j ∈ rest, j.collect_ok = true :=
        fun j hj => hall j (List.mem_cons_of_mem it hj)
      simp [heartbeat_loop_trace, heartbeat_counter_trace,
        collect_connection_quality, hit, ih _ hrest]

/-- Claim C5, witness: a concrete run of the amended theorem — the
environment sequence fail-fail-success-fail with metric collection
succeeding throughout, whose payload qualities follow the fixed table of
the sampled counters. -/
theorem heartbeat_failure_counter_and_quality_witness :
    3 ≤ 5 ∧ connection_quality_of_failures 5 = 40 ∧
    (heartbeat_loop_trace 0
        [⟨true, false⟩, ⟨true, false⟩, ⟨true, true⟩, ⟨true, false⟩]).map Prod.fst =
      (heartbeat_counter_trace 0
          [⟨true, false⟩, ⟨true, false⟩, ⟨true, true⟩, ⟨true, false⟩]).map
        connection_quality_of_failures :=
  ⟨by decide,
    (heartbeat_failure_counter_and_quality 0
        [⟨true, false⟩, ⟨true, false⟩, ⟨true, true⟩, ⟨true, false⟩]).2.2.2.2.2.1
      5 (by decide),
    (heartbeat_failure_counter_and_quality 0
        [⟨true, false⟩, ⟨true, false⟩, ⟨true, true⟩, ⟨true, false⟩]).2.2.2.2.2.2.2.2.2
      (by decide)⟩

/-! ### Theorems for claim C6 -/

/-- Claim C6, counterexample: the claim applies the 70-percent threshold
to any of the three metrics, but the code checks only CPU and memory;
with CPU 0, memory 0 and disk 80 the code reports `online` while the
claimed rule yields `moderate`. -/
theorem collect_status_moderate_cex :
    collect_status 0 0 80 = "online" ∧
    collect_status_claimed 0 0 80 = "moderate" ∧
    ("online" : String) ≠ "moderate" := by
  refine ⟨by norm_num [collect_status], by norm_num [collect_status_claimed], by decide⟩

/-- Claim C6 (amended): each heartbeat's coarse status is `busy` iff any
of the three metrics exceeds 90; otherwise `moderate` iff CPU or memory
exceeds 70 (the disk metric is consulted only for the busy threshold);
and `online` otherwise. -/
theorem collect_status_thresholds (cpu memory disk : ℚ) :
    (collect_status cpu memory disk = "busy" ↔ (cpu > 90 ∨ memory > 90 ∨ disk > 90)) ∧
    (collect_status cpu memory disk = "moderate" ↔
      (¬(cpu > 90 ∨ memory > 90 ∨ disk > 90) ∧ (cpu > 70 ∨ memory > 70))) ∧
    (collect_status cpu memory disk = "online" ↔
      (¬(cpu > 90 ∨ memory > 90 ∨ disk > 90) ∧ ¬(cpu > 70 ∨ memory > 70))) := by
  have hbm : ("busy" : String) ≠ "moderate" := by decide
  have hbo : ("busy" : String) ≠ "online" := by decide
  have hmo : ("moderate" : String) ≠ "online" := by decide
  unfold collect_status
  by_cases h90 : cpu > 90 ∨ memory > 90 ∨ disk > 90
  · simp [h90, hbm, hbo]
  · by_cases h70 : cpu > 70 ∨ memory > 70
    · simp [h90, h70, hbm.symm, hmo]
    · simp [h90, h70, hbo.symm, hmo.symm]

/-! ### Theorems for claim C7 -/

/-- Helper: a defaulted association-list lookup yields either the
default or one of the stored values. -/
theorem lookup_getD_mem_values (l : List (String × String)) (k d : String) :
    (List.lookup k l).getD d = d ∨ ((List.lookup k l).getD d) ∈ l.map Prod.snd := by
  induction l with
  | nil => left; rfl
  | cons hd tl ih =>
    obtain ⟨a, b⟩ := hd
    simp only [List.lookup, List.map_cons]
    split
    · right; simp
    · rcases ih with h1 | h1
      · left; exact h1
      · right; exact List.mem_cons_of_mem _ h1

/-- Helper: whatever the previous cache entry, after one poll cycle the
cache entry equals the current mapped status and queue length (either it
was just written, or it already had exactly those values). -/
theorem check_device_cache (last : Option StatusCacheEntry) (s : String) (q : Nat) :
    (check_and_report_device last s q).1 =
      some ⟨convert_status_to_cloud_format s, q⟩ := by
  unfold check_and_report_device
  cases last with
  | none => rfl
  | some e =>
    by_cases hs : e.status = convert_status_to_cloud_format s
    · by_cases hq : e.queue_length = q
      · have : e = ⟨convert_status_to_cloud_format s, q⟩ := by
          cases e; simp_all
        simp [hs, hq, this]
      · simp [hq]
    · simp [hs]

/-- Helper: a poll cycle whose reading matches the cached entry emits
nothing and leaves the cache unchanged. -/
theorem check_device_stable (s : String) (q : Nat) :
    check_and_report_device (some ⟨convert_status_to_cloud_format s, q⟩) s q =
      (some ⟨convert_status_to_cloud_format s, q⟩, none) := by
  simp [check_and_report_device]

/-- Helper: a constant reading emits nothing once the cache holds it. -/
theorem report_cycles_stable (s : String) (q n : Nat) :
    report_cycles (some ⟨convert_status_to_cloud_format s, q⟩)
      (List.replicate n (s, q)) = List.replicate n none := by
  induction n with
  | zero => rfl
  | succ n ih =>
    simp only [List.replicate, report_cycles, check_device_stable, ih]

/-- Claim C7: a poll cycle emits a `printer_status` message iff the
mapped status or the queue length differs from the cached value (an
empty cache always emits); when nothing is emitted the cache is left
unchanged; the mapped status always lies in
`{ready, printing, error, offline}`, with every unmapped native value
defaulting to `offline`; and an unchanged device across `n` further
cycles emits nothing after the first cycle. -/
theorem status_reporter_differential (last : Option StatusCacheEntry)
    (e : StatusCacheEntry) (native_status : String) (queue_length n : Nat) :
    (check_and_report_device none native_status queue_length).2 =
      some (convert_status_to_cloud_format native_status, queue_length) ∧
    ((check_and_report_device (some e) native_status queue_length).2 ≠ none ↔
      (e.status ≠ convert_status_to_cloud_format native_status ∨
        e.queue_length ≠ queue_length)) ∧
    ((check_and_report_device last native_status queue_length).2 = none →
      (check_and_report_device last native_status queue_length).1 = last) ∧
    convert_status_to_cloud_format native_status ∈
      ["ready", "printing", "error", "offline"] ∧
    (List.lookup native_status status_map = none →
      convert_status_to_cloud_format native_status = "offline") ∧
    report_cycles last
        ((native_status, queue_length) :: List.replicate n (native_status, queue_length)) =
      (check_and_report_device last native_status queue_length).2
        :: List.replicate n none := by
  refine ⟨rfl, ?_, ?_, ?_, ?_, ?_⟩
  · unfold check_and_report_device
    by_cases hs : e.status = convert_status_to_cloud_format native_status
    · by_cases hq : e.queue_length = queue_length
      · simp [hs, hq]
      · simp [hs, hq]
    · simp [hs]
  · intro h
    unfold check_and_report_device at h ⊢
    cases last with
    | none => simp at h
    | some e' =>
      by_cases hs : e'.status = convert_status_to_cloud_format native_status
      · by_cases hq : e'.queue_length = queue_length
        · simp [hs, hq]
        · simp [hs, hq] at h
      · simp [hs] at h
  · rcases lookup_getD_mem_values status_map native_status "offline" with h | h
    · unfold convert_status_to_cloud_format
      rw [h]; decide
    · have hall : ∀ x ∈ status_map.map Prod.snd,
          x ∈ ["ready", "printing", "error", "offline"] := by decide
      exact hall _ h
  · intro h
    unfold convert_status_to_cloud_format
    rw [h]
    rfl
  · show (check_and_report_device last native_status queue_length).2 ::
        report_cycles (check_and_report_device last native_status queue_length).1
          (List.replicate n (native_status, queue_length)) = _
    rw [check_device_cache, report_cycles_stable]

/-- Claim C7, witness: a concrete run of the theorem — the unmapped
native status `weird` converts to `offline`, and a device staying at
(`idle`, queue 0) for three cycles emits exactly one message, in the
first cycle. -/
theorem status_reporter_differential_witness :
    (List.lookup "weird" status_map = none →
      convert_status_to_cloud_format "weird" = "offline") ∧
    convert_status_to_cloud_format "weird" = "offline" ∧
    report_cycles none [("idle", 0), ("idle", 0), ("idle", 0)] =
      [some ("ready", 0), none, none] := by
  have h := status_reporter_differential none ⟨"ready", 0⟩ "weird" 0 0
  have h2 := (status_reporter_differential none ⟨"ready", 0⟩ "idle" 0 2).2.2.2.2.2
  refine ⟨h.2.2.2.2.1, h.2.2.2.2.1 (by decide), ?_⟩
  have h3 : (check_and_report_device none "idle" 0).2 = some ("ready", 0) := by decide
  rw [h3] at h2
  simpa using h2

/-! ### Theorems for claim C9 -/

/-- Helper: every sleep in a reconnect-loop trace lasts exactly 5
seconds. -/
theorem connect_and_listen_sleep_five (l : List WsIteration) (n : Nat) :
    WsEvent.sleep n ∈ connect_and_listen l → n = 5 := by
  induction l with
  | nil => intro h; simp [connect_and_listen] at h
  | cons it rest ih =>
    intro h
    unfold connect_and_listen at h
    by_cases hr : it.head_running
    · rw [if_pos hr] at h
      cases ho : it.outcome with
      | tokenFail =>
        rw [ho] at h
        rcases List.mem_cons.mp h with h1 | h1
        · cases h1; rfl
        · exact ih h1
      | connectFail =>
        rw [ho] at h
        rcases List.mem_cons.mp h with h1 | h1
        · cases h1
        · by_cases ht : it.tail_running
          · rw [if_pos ht] at h1
            rcases List.mem_cons.mp h1 with h2 | h2
            · cases h2; rfl
            · exact ih h2
          · rw [if_neg ht] at h1
            exact ih h1
    · rw [if_neg hr] at h
      simp at h

/-- Claim C9: while the `running` flag is observed `true`, a failed
token fetch produces exactly one 5-second backoff before the next
iteration, a failed connection attempt with the flag still set at the
trailing check produces exactly one 5-second backoff before the next
iteration, a fully running schedule produces exactly the per-iteration
blocks (one fixed 5-second sleep per failure, no exponential growth, and
every sleep in any trace is 5 seconds); and once the flag samples
`false` at the loop head, the loop exits with no further connection
attempts. -/
theorem connect_and_listen_backoff (it : WsIteration) (rest l : List WsIteration) :
    (it.head_running = true → it.outcome = WsOutcome.tokenFail →
      connect_and_listen (it :: rest) = WsEvent.sleep 5 :: connect_and_listen rest) ∧
    (it.head_running = true → it.outcome = WsOutcome.connectFail →
      it.tail_running = true →
      connect_and_listen (it :: rest) =
        WsEvent.connectAttempt :: WsEvent.sleep 5 :: connect_and_listen rest) ∧
    ((∀ j ∈ l, j.head_running = true ∧ j.tail_running = true) →
      connect_and_listen l = l.flatMap ws_iteration_block) ∧
    (∀ n, WsEvent.sleep n ∈ connect_and_listen l → n = 5) ∧
    (it.head_running = false → connect_and_listen (it :: rest) = [] ∧
      WsEvent.connectAttempt ∉ connect_and_listen (it :: rest)) := by
  refine ⟨?_, ?_, ?_, connect_and_listen_sleep_five l, ?_⟩
  · intro hr ho
    simp [connect_and_listen, hr, ho]
  · intro hr ho ht
    simp [connect_and_listen, hr, ho, ht]
  · intro hall
    induction l with
    | nil => rfl
    | cons j js ih =>
      have hj := hall j (List.mem_cons_self j js)
      have hjs : ∀ k ∈ js, k.head_running = true ∧ k.tail_running = true :=
        fun k hk => hall k (List.mem_cons_of_mem j hk)
      unfold connect_and_listen
      rw [if_pos hj.1]
      cases ho : j.outcome with
      | tokenFail =>
        simp [ws_iteration_block, ho, ih hjs]
      | connectFail =>
        rw [if_pos hj.2]
        simp [ws_iteration_block, ho, ih hjs]
  · intro hr
    have h0 : connect_and_listen (it :: rest) = [] := by
      unfold connect_and_listen
      rw [if_neg (by simp [hr])]
    exact ⟨h0, by rw [h0]; simp⟩

/-- Claim C9, witness: a concrete run of the theorem — two running
iterations (token failure, then connection failure) produce exactly the
two fixed 5-second backoff blocks, and a stopped head sample produces an
empty trace with no connection attempt. -/
theorem connect_and_listen_backoff_witness :
    connect_and_listen [⟨true, WsOutcome.tokenFail, true⟩, ⟨true, WsOutcome.connectFail, true⟩] =
      [WsEvent.sleep 5, WsEvent.connectAttempt, WsEvent.sleep 5] ∧
    connect_and_listen [⟨false, WsOutcome.tokenFail, true⟩] = [] := by
  constructor
  · have h := (connect_and_listen_backoff ⟨true, WsOutcome.tokenFail, true⟩ []
      [⟨true, WsOutcome.tokenFail, true⟩, ⟨true, WsOutcome.connectFail, true⟩]).2.2.1
      (by decide)
    rw [h]; rfl
  · exact ((connect_and_listen_backoff ⟨false, WsOutcome.tokenFail, true⟩ [] []).2.2.2.2
      rfl).1

/-! ### Theorems for claim C1 -/

/-- Helper: no path of the monitor's polling loop ever reports a
failure. -/
theorem monitor_loop_no_failure (poll : Nat → Option JobQuery) (fuel i : Nat) :
    MonitorEvent.reportFailure ∉ monitor_loop poll fuel i := by
  induction fuel generalizing i with
  | zero => simp [monitor_loop]
  | succ fuel ih =>
    cases hp : poll i with
    | none => simp [monitor_loop, hp]
    | some q =>
      by_cases ht : job_query_terminal q
      · simp [monitor_loop, hp, ht]
      · simp [monitor_loop, hp, ht, ih]

/-- Helper: every path of the monitor's polling loop reports success
exactly once. -/
theorem monitor_loop_one_success (poll : Nat → Option JobQuery) (fuel i : Nat) :
    (monitor_loop poll fuel i).count MonitorEvent.reportSuccess = 1 := by
  induction fuel generalizing i with
  | zero => rfl
  | succ fuel ih =>
    cases hp : poll i with
    | none => simp [monitor_loop, hp, List.count_cons]
    | some q =>
      by_cases ht : job_query_terminal q
      · simp [monitor_loop, hp, ht, List.count_cons]
      · simp [monitor_loop, hp, ht, ih, List.count_cons]

/-- Helper: if the first `k` polls are non-terminal and poll `k` is
terminal (exception or terminal state) within the ceiling, the loop runs
exactly `k + 1` sleep-and-poll blocks and then reports success. -/
theorem monitor_loop_stops_at (poll : Nat → Option JobQuery) :
    ∀ (k i fuel : Nat), k < fuel →
      (∀ j, j < k → monitor_poll_stops poll (i + j) = false) →
      monitor_poll_stops poll (i + k) = true →
      monitor_loop poll fuel i =
        monitor_poll_blocks i (k + 1) ++ [MonitorEvent.reportSuccess] := by
  intro k
  induction k with
  | zero =>
    intro i fuel hk hb hs
    obtain ⟨fuel', rfl⟩ : ∃ f, fuel = f + 1 := ⟨fuel - 1, by omega⟩
    rw [Nat.add_zero] at hs
    unfold monitor_poll_stops at hs
    cases hp : poll i with
    | none => simp [monitor_loop, monitor_poll_blocks, hp]
    | some q =>
      rw [hp] at hs
      have hs' : job_query_terminal q = true := hs
      simp [monitor_loop, monitor_poll_blocks, hp, hs']
  | succ k ih =>
    intro i fuel hk hb hs
    obtain ⟨fuel', rfl⟩ : ∃ f, fuel = f + 1 := ⟨fuel - 1, by omega⟩
    have h0 : monitor_poll_stops poll i = false := by
      have := hb 0 (by omega)
      rwa [Nat.add_zero] at this
    unfold monitor_poll_stops at h0
    cases hp : poll i with
    | none => rw [hp] at h0; cases h0
    | some q =>
      rw [hp] at h0
      have h0' : job_query_terminal q = false := h0
      have hrec := ih (i + 1) fuel' (by omega)
        (fun j hj => by
          have := hb (j + 1) (by omega)
          rwa [show i + (j + 1) = (i + 1) + j by omega] at this)
        (by rwa [show i + (k + 1) = (i + 1) + k by omega] at hs)
      simp [monitor_loop, monitor_poll_blocks, hp, h0', hrec]

/-- Helper: if no poll within the 60-iteration ceiling is terminal, the
loop exhausts the ceiling and still reports success. -/
theorem monitor_loop_timeout (poll : Nat → Option JobQuery) :
    ∀ (fuel i : Nat), (∀ j, j < fuel → monitor_poll_stops poll (i + j) = false) →
      monitor_loop poll fuel i =
        monitor_poll_blocks i fuel ++ [MonitorEvent.reportSuccess] := by
  intro fuel
  induction fuel with
  | zero => intro i _; rfl
  | succ fuel ih =>
    intro i h
    have h0 : monitor_poll_stops poll i = false := by
      have := h 0 (by omega)
      rwa [Nat.add_zero] at this
    unfold monitor_poll_stops at h0
    cases hp : poll i with
    | none => rw [hp] at h0; cases h0
    | some q =>
      rw [hp] at h0
      have h0' : job_query_terminal q = false := h0
      have hrec := ih (i + 1) (fun j hj => by
        have := h (j + 1) (by omega)
        rwa [show i + (j + 1) = (i + 1) + j by omega] at this)
      simp [monitor_loop, monitor_poll_blocks, hp, h0', hrec]

/-- Claim C1: the completion monitor never reports failure and reports
success exactly once on every run; with no truthy local job handle it
sleeps a fixed 10 seconds and reports success unconditionally; with a
handle it polls every 10 seconds and reports success at the first poll
whose answer is an exception, a job absent from the queue, or a terminal
completed state; and if none of the 60 polls within the 600-second
ceiling is terminal it reports success anyway. -/
theorem monitor_job_completion_reports_success (local_job_id : Option String)
    (poll : Nat → Option JobQuery) :
    MonitorEvent.reportFailure ∉ monitor_job_completion local_job_id poll ∧
    (monitor_job_completion local_job_id poll).count MonitorEvent.reportSuccess = 1 ∧
    (pyTruthyStr local_job_id = false →
      monitor_job_completion local_job_id poll =
        [MonitorEvent.sleep 10, MonitorEvent.reportSuccess]) ∧
    (pyTruthyStr local_job_id = true → ∀ k, k < 60 →
      (∀ j, j < k → monitor_poll_stops poll j = false) →
      monitor_poll_stops poll k = true →
      monitor_job_completion local_job_id poll =
        monitor_poll_blocks 0 (k + 1) ++ [MonitorEvent.reportSuccess]) ∧
    (pyTruthyStr local_job_id = true →
      (∀ j, j < 60 → monitor_poll_stops poll j = false) →
      monitor_job_completion local_job_id poll =
        monitor_poll_blocks 0 60 ++ [MonitorEvent.reportSuccess]) := by
  refine ⟨?_, ?_, ?_, ?_, ?_⟩
  · by_cases h : pyTruthyStr local_job_id
    · simp [monitor_job_completion, h, monitor_loop_no_failure]
    · simp [monitor_job_completion, h]
  · by_cases h : pyTruthyStr local_job_id
    · simp [monitor_job_completion, h, monitor_loop_one_success]
    · simp [monitor_job_completion, h, List.count_cons]
  · intro h
    simp [monitor_job_completion, h]
  · intro h k hk hb hs
    rw [monitor_job_completion, if_pos h]
    exact monitor_loop_stops_at poll k 0 60 hk
      (fun j hj => by simpa using hb j hj) (by simpa using hs)
  · intro h hall
    rw [monitor_job_completion, if_pos h]
    exact monitor_loop_timeout poll 60 0 (fun j hj => by simpa using hall j hj)

/-- Claim C1, witness: a concrete run of the theorem — local handle
`42`, two non-terminal polls and a third poll reporting the job gone
from the queue: the monitor runs three sleep-and-poll blocks and then
reports success. -/
theorem monitor_job_completion_reports_success_witness :
    pyTruthyStr (some "42") = true ∧
    monitor_job_completion (some "42")
        (fun i => if i < 2 then some ⟨true, some "printing"⟩ else some ⟨false, none⟩) =
      monitor_poll_blocks 0 3 ++ [MonitorEvent.reportSuccess] :=
  ⟨by decide,
    (monitor_job_completion_reports_success (some "42")
        (fun i => if i < 2 then some ⟨true, some "printing"⟩ else some ⟨false, none⟩)).2.2.2.1
      (by decide) 2 (by decide) (by decide) (by decide)⟩

/-! ### Theorems for claim C4 -/

/-- Claim C4: an inbound `print_job` message in which `job_id`,
`printer_name` or `file_url` is absent makes the handler abort silently:
no download, no backend submission, no `job_update` — no observable
action at all. -/
theorem handle_print_job_missing_fields (msg : PrintJobData) (token : Option String)
    (download_resp : Option Nat) (submit : SubmitResult)
    (h : msg.job_id = none ∨ msg.printer_name = none ∨ msg.file_url = none) :
    handle_print_job msg token download_resp submit = [] := by
  unfold handle_print_job
  rcases h with h | h | h <;> simp [h, pyTruthyStr]

/-- Claim C4, witness: a concrete message missing its `job_id` produces
no events. -/
theorem handle_print_job_missing_fields_witness :
    (PrintJobData.mk none (some "HP1") (some "http://x/doc.pdf") none []).job_id = none ∧
    handle_print_job ⟨none, some "HP1", some "http://x/doc.pdf", none, []⟩ none
      (some 200) ⟨true, none, none⟩ = [] :=
  ⟨rfl, handle_print_job_missing_fields _ none (some 200) ⟨true, none, none⟩ (Or.inl rfl)⟩

/-! ### Theorems for claim C3 -/

/-- Claim C3, counterexample: the claim that a non-pre-signed download
request always carries the bearer auth header fails on the code — when
no token can be obtained, `get_auth_headers` returns only a
`Content-Type` header, and the 404 download of this plain URL is sent
without any `Authorization` entry. -/
theorem download_bearer_header_cex :
    is_presigned_url "http://host/doc.pdf" = false ∧
    handle_print_job ⟨some "J1", some "HP1", some "http://host/doc.pdf", some "Invoice", []⟩
        none (some 404) ⟨true, none, some "42"⟩ =
      [PipelineEvent.download "http://host/doc.pdf" [("Content-Type", "application/json")],
       PipelineEvent.jobUpdate "J1" "failed" 0 (some "文件下载失败")] ∧
    ∀ p ∈ [(("Content-Type", "application/json") : String × String)],
      p.1 ≠ "Authorization" := by
  refine ⟨by decide, by decide, by decide⟩

/-- Claim C3 (amended): when the download of a complete `print_job`
message fails (transport error or non-200 status), the handler emits
exactly the download attempt followed by a failed `job_update` with
progress 0 and error `文件下载失败` — in particular no backend
submission and no monitor start; the download request carries no headers
at all exactly when the URL contains both `X-Amz-Algorithm` and
`X-Amz-Signature`; and otherwise it carries the auth client's headers,
which include the bearer authorization header exactly when a token is
available. -/
theorem download_failure_reporting (jid pname furl : String) (nm : Option String)
    (opts : List (String × String)) (token : Option String)
    (download_resp : Option Nat) (submit : SubmitResult)
    (hj : jid ≠ "") (hp : pname ≠ "") (hf : furl ≠ "")
    (hfail : download_resp = none ∨ ∃ c, download_resp = some c ∧ c ≠ 200) :
    handle_print_job ⟨some jid, some pname, some furl, nm, opts⟩ token download_resp submit =
      [PipelineEvent.download furl (download_headers furl token),
       PipelineEvent.jobUpdate jid "failed" 0 (some "文件下载失败")] ∧
    (∀ e ∈ handle_print_job ⟨some jid, some pname, some furl, nm, opts⟩ token
        download_resp submit,
      (∀ p fp jn, e ≠ PipelineEvent.submitJob p fp jn) ∧
      (∀ cj lj, e ≠ PipelineEvent.monitorStarted cj lj)) ∧
    ((download_headers furl token = []) ↔ is_presigned_url furl = true) ∧
    (∀ tok, token = some tok → tok ≠ "" → is_presigned_url furl = false →
      ("Authorization", "Bearer " ++ tok) ∈ download_headers furl token) := by
  have hdl : (download_print_file furl jid token download_resp).2 = none := by
    unfold download_print_file
    rcases hfail with rfl | ⟨c, rfl, hc⟩
    · rfl
    · simp [hc]
  have heq : handle_print_job ⟨some jid, some pname, some furl, nm, opts⟩ token
      download_resp submit =
      [PipelineEvent.download furl (download_headers furl token),
       PipelineEvent.jobUpdate jid "failed" 0 (some "文件下载失败")] := by
    unfold handle_print_job
    simp only [pyTruthyStr]
    rw [if_pos (by simp [hj, hp, hf])]
    simp only [Option.getD_some]
    rw [hdl]
    simp [report_job_failure, pyTruthyStr, hj, download_print_file]
  refine ⟨heq, ?_, ?_, ?_⟩
  · intro e he
    rw [heq] at he
    rcases List.mem_cons.mp he with rfl | he
    · exact ⟨fun p fp jn => by simp, fun cj lj => by simp⟩
    rcases List.mem_cons.mp he with rfl | he
    · exact ⟨fun p fp jn => by simp, fun cj lj => by simp⟩
    · simp at he
  · unfold download_headers
    by_cases hpre : is_presigned_url furl
    · simp [hpre]
    · simp only [hpre, if_false, Bool.false_eq_true, iff_false]
      unfold auth_headers_for
      by_cases ht : pyTruthyStr token <;> simp [ht]
  · intro tok htok hne hpre
    subst htok
    simp [download_headers, hpre, auth_headers_for, pyTruthyStr, hne]

/-- Claim C3, witness: a concrete run of the amended theorem — a
complete message whose plain URL gets a 404 answer while a token is
available: the handler emits the download attempt (with bearer header)
and the failed `job_update`, and nothing else. -/
theorem download_failure_reporting_witness :
    handle_print_job ⟨some "J1", some "HP1", some "http://host/doc.pdf", some "Invoice", []⟩
        (some "tok") (some 404) ⟨true, none, some "42"⟩ =
      [PipelineEvent.download "http://host/doc.pdf"
         [("Authorization", "Bearer tok"), ("Content-Type", "application/json")],
       PipelineEvent.jobUpdate "J1" "failed" 0 (some "文件下载失败")] ∧
    ("Authorization", "Bearer " ++ "tok") ∈
      download_headers "http://host/doc.pdf" (some "tok") := by
  have h := download_failure_reporting "J1" "HP1" "http://host/doc.pdf" (some "Invoice")
    [] (some "tok") (some 404) ⟨true, none, some "42"⟩
    (by decide) (by decide) (by decide) (Or.inr ⟨404, rfl, by decide⟩)
  refine ⟨?_, h.2.2.2 "tok" rfl (by decide) (by decide)⟩
  rw [h.1]
  have : download_headers "http://host/doc.pdf" (some "tok") =
      [("Authorization", "Bearer tok"), ("Content-Type", "application/json")] := by decide
  rw [this]

/-! ### Theorems for claim C8 -/

/-- Claim C8, counterexample: `stop()` does not tear components down in
the reverse of the start order — with all three components present it
stops the websocket client, then the heartbeat service, then the status
reporter, while the reverse of the start order (heartbeat, websocket,
status reporter) would be status reporter, websocket, heartbeat. -/
theorem cloud_service_stop_order_cex :
    (cloud_service_stop ⟨some true, some true, some true, true⟩).2 =
      [CloudComponent.websocket, CloudComponent.heartbeat, CloudComponent.statusReporter] ∧
    (cloud_service_start_order true true).reverse =
      [CloudComponent.statusReporter, CloudComponent.websocket, CloudComponent.heartbeat] ∧
    (cloud_service_stop ⟨some true, some true, some true, true⟩).2 ≠
      (cloud_service_start_order true true).reverse := by
  refine ⟨rfl, by decide, by decide⟩

/-- Claim C8 (amended): `stop()` stops the components in the fixed
textual order websocket client, heartbeat service, status reporter (not
the reverse of the start order); stopping is idempotent at the service
level and at each component level; components never created are simply
skipped (safe after a partial `start()`); and `registered` is cleared. -/
theorem cloud_service_stop_properties (s : CloudServiceState) (a b c r : Bool) :
    (cloud_service_stop ⟨some a, some b, some c, r⟩).2 =
      [CloudComponent.websocket, CloudComponent.heartbeat, CloudComponent.statusReporter] ∧
    cloud_service_stop (cloud_service_stop s).1 = cloud_service_stop s ∧
    websocket_client_stop (websocket_client_stop a) = websocket_client_stop a ∧
    heartbeat_service_stop (heartbeat_service_stop b) = heartbeat_service_stop b ∧
    status_reporter_stop (status_reporter_stop c) = status_reporter_stop c ∧
    (s.websocket_client = none →
      CloudComponent.websocket ∉ (cloud_service_stop s).2) ∧
    (s.heartbeat_service = none →
      CloudComponent.heartbeat ∉ (cloud_service_stop s).2) ∧
    (s.status_reporter = none →
      CloudComponent.statusReporter ∉ (cloud_service_stop s).2) ∧
    (cloud_service_stop s).1.registered = false := by
  obtain ⟨ws, hb, sr, r'⟩ := s
  refine ⟨rfl, ?_, rfl, rfl, rfl, ?_, ?_, ?_, ?_⟩
  · cases ws <;> cases hb <;> cases sr <;> rfl
  · intro h
    cases h
    cases hb <;> cases sr <;> simp [cloud_service_stop]
  · intro h
    cases h
    cases ws <;> cases sr <;> simp [cloud_service_stop]
  · intro h
    cases h
    cases ws <;> cases hb <;> simp [cloud_service_stop]
  · cases ws <;> cases hb <;> cases sr <;> rfl

/-- Claim C8, witness: a concrete run of the amended theorem on a
partially started service (only the heartbeat component exists):
stopping skips the websocket component. -/
theorem cloud_service_stop_properties_witness :
    (⟨none, some true, none, true⟩ : CloudServiceState).websocket_client = none ∧
    CloudComponent.websocket ∉ (cloud_service_stop ⟨none, some true, none, true⟩).2 :=
  ⟨rfl, (cloud_service_stop_properties ⟨none, some true, none, true⟩ true true true
      true).2.2.2.2.2.1 rfl⟩
